import Mathlib

/-!
Verification development for the `zfs` package of the zfs_exporter repository
(`pool_status_json.go`, `version.go`, and the untitled older version file).

The package shells out to the `zpool` / `zfs` command-line tools, captures
their stdout/stderr, decodes the JSON envelope stdout carries
(`encoding/json.Unmarshal` into tagged Go structs), and exposes the decoded
data together with `slog.LogValue` projections.

The embedding below models:
  * the JSON documents the tools emit (`Json`), with a parser for the
    integer-valued, escape-free fragment those tools produce
    (`zpool ... --json --json-int` renders all numbers as integers);
  * the Go structs (`VdevStatusT`, `ScanStatsT`, `PoolStatusT`,
    `ZpoolStatusOutputT`, `ZFSVersionOutputT`, ...) and the behaviour of
    `encoding/json.Unmarshal` on them: keys are matched against the struct
    tag (or, for untagged/unexported fields, the field name) exactly or
    ASCII-case-insensitively, unknown keys are ignored, absent keys leave the
    zero value, `null` leaves scalar fields unchanged, and numbers must fit
    the signed 64-bit range of the target `int`/`int64` field;
  * the `slog.LogValue` methods as lists of key/value attributes;
  * the process-running skeleton shared by `ZpoolStatusViaJSON`,
    `GetZFSVersionViaJSON` and `GetZFSVersion` (pipe setup, start, read
    stdout, read stderr, wait, unmarshal), as a function of the observable
    events of one run (`ProcEnv`);
  * the stream-drain schedule those functions use (stdout drained to EOF
    first, stderr only afterwards) against a bounded pipe buffer.
-/

/-- Opening brace character (written by code to keep string literals plain). -/
def lbrace : Char := Char.ofNat 123

/-- Closing brace character. -/
def rbrace : Char := Char.ofNat 125

/-- Backslash character. -/
def bslashc : Char := Char.ofNat 92

/-- Double-quote character. -/
def dquote : Char := Char.ofNat 34

/-- JSON values as produced by the tools under `--json --json-int`: objects,
arrays, strings without escape sequences, integer numbers, booleans, null.
Object members are kept in document order. -/
inductive Json where
  | null : Json
  | bool (b : Bool) : Json
  | num (n : Int) : Json
  | str (s : String) : Json
  | arr (elems : List Json) : Json
  | obj (members : List (String × Json)) : Json

/-- Whitespace recognised by the JSON grammar. -/
def isJsonWs (c : Char) : Bool :=
  c = ' ' || c = '\t' || c = '\n' || c = '\r'

/-- Drop leading JSON whitespace. -/
def skipWs : List Char → List Char
  | [] => []
  | c :: rest => if isJsonWs c then skipWs rest else c :: rest

/-- Read the body of a string literal (opening quote already consumed) up to
the closing quote.  Escape sequences are not part of the fragment the tools
emit; a backslash makes the parse fail. -/
def parseStrBody : List Char → Option (String × List Char)
  | [] => none
  | c :: rest =>
    if c = dquote then some ("", rest)
    else if c = bslashc then none
    else match parseStrBody rest with
      | some (s, rem) => some (⟨c :: s.data⟩, rem)
      | none => none

/-- Accumulate a run of decimal digits into `acc`. -/
def parseDigitsAux (acc : Nat) : List Char → Nat × List Char
  | [] => (acc, [])
  | c :: rest =>
    if c.isDigit then parseDigitsAux (acc * 10 + (c.toNat - 48)) rest
    else (acc, c :: rest)

/-- Read a non-empty run of decimal digits as a natural number. -/
def parseDigits : List Char → Option (Nat × List Char)
  | [] => none
  | c :: rest =>
    if c.isDigit then some (parseDigitsAux (c.toNat - 48) rest) else none

mutual

/-- Parse one JSON value.  `fuel` bounds the recursion depth; callers pass
the input length plus one, which always suffices. -/
def parseValue (fuel : Nat) (cs : List Char) : Option (Json × List Char) :=
  match fuel with
  | 0 => none
  | fuel + 1 =>
    match skipWs cs with
    | [] => none
    | c :: rest =>
      if c = lbrace then
        match skipWs rest with
        | c' :: rest' =>
          if c' = rbrace then some (.obj [], rest')
          else
            match parseMembers fuel (c' :: rest') with
            | some (ms, fin) => some (.obj ms, fin)
            | none => none
        | [] => none
      else if c = '[' then
        match skipWs rest with
        | c' :: rest' =>
          if c' = ']' then some (.arr [], rest')
          else
            match parseElems fuel (c' :: rest') with
            | some (vs, fin) => some (.arr vs, fin)
            | none => none
        | [] => none
      else if c = dquote then
        match parseStrBody rest with
        | some (s, rem) => some (.str s, rem)
        | none => none
      else if c = 't' then
        match rest with
        | 'r' :: 'u' :: 'e' :: rem => some (.bool true, rem)
        | _ => none
      else if c = 'f' then
        match rest with
        | 'a' :: 'l' :: 's' :: 'e' :: rem => some (.bool false, rem)
        | _ => none
      else if c = 'n' then
        match rest with
        | 'u' :: 'l' :: 'l' :: rem => some (.null, rem)
        | _ => none
      else if c = '-' then
        match parseDigits rest with
        | some (n, rem) => some (.num (-(n : Int)), rem)
        | none => none
      else
        match parseDigits (c :: rest) with
        | some (n, rem) => some (.num (n : Int), rem)
        | none => none

/-- Parse the members of an object (positioned at the first key; the opening
brace, and for the empty object the closing brace, are handled by
`parseValue`). -/
def parseMembers (fuel : Nat) (cs : List Char) : Option (List (String × Json) × List Char) :=
  match fuel with
  | 0 => none
  | fuel + 1 =>
    match skipWs cs with
    | c :: rest =>
      if c = dquote then
        match parseStrBody rest with
        | some (k, rem) =>
          match skipWs rem with
          | ':' :: rem' =>
            match parseValue fuel rem' with
            | some (v, rem'') =>
              match skipWs rem'' with
              | ',' :: more =>
                match parseMembers fuel more with
                | some (ms, fin) => some ((k, v) :: ms, fin)
                | none => none
              | d :: fin =>
                if d = rbrace then some ([(k, v)], fin) else none
              | [] => none
            | none => none
          | _ => none
        | none => none
      else none
    | [] => none

/-- Parse the elements of an array (positioned at the first element). -/
def parseElems (fuel : Nat) (cs : List Char) : Option (List Json × List Char) :=
  match fuel with
  | 0 => none
  | fuel + 1 =>
    match parseValue fuel cs with
    | some (v, rem) =>
      match skipWs rem with
      | ',' :: more =>
        match parseElems fuel more with
        | some (vs, fin) => some (v :: vs, fin)
        | none => none
      | ']' :: fin => some ([v], fin)
      | _ => none
    | none => none

end

/-- Model of the parsing half of `encoding/json.Unmarshal`: a single JSON
document, optionally surrounded by whitespace; anything else (in particular
empty input) is a syntax error, reported as `none`. -/
def parseJson (s : String) : Option Json :=
  match parseValue (s.data.length + 1) s.data with
  | some (j, rest) => if skipWs rest = [] then some j else none
  | none => none

example : parseJson "" = none := rfl
example : parseJson " \x7b\x7d " = some (.obj []) := rfl
example : parseJson "\x7b\"a\":3,\"b\":\"x\"\x7d" =
    some (.obj [("a", .num 3), ("b", .str "x")]) := rfl
example : parseJson "zpool: command error" = none := rfl
example : parseJson "-12" = some (.num (-12)) := rfl
example : parseJson "\x7b\"a\":\x7b\"b\":\x7b\x7d\x7d\x7d" =
    some (.obj [("a", .obj [("b", .obj [])])]) := rfl

/-!
## Field matching of `encoding/json.Unmarshal`

For each key of a JSON object, `Unmarshal` looks for the struct field whose
tag (or, when the field carries no tag, whose name) matches the key —
preferring an exact match but also accepting an ASCII-case-insensitive one.
All field identifiers of this package are pairwise distinct even after case
folding, so matching is per-field.  Unexported Go struct fields take no part
in decoding at all.
-/

/-- ASCII lower-casing of one character. -/
def foldLowerChar (c : Char) : Char :=
  if 'A' ≤ c && c ≤ 'Z' then Char.ofNat (c.toNat + 32) else c

/-- ASCII lower-casing of a string (the fold `encoding/json` applies to
field names; these identifiers are pure ASCII). -/
def lowerStr (s : String) : String := ⟨s.data.map foldLowerChar⟩

/-- Key/field-name matching of `encoding/json`: exact, or case-insensitive. -/
def keyMatches (key fieldName : String) : Bool :=
  key == fieldName || lowerStr key == lowerStr fieldName

example : keyMatches "userland" "Userland" = true := by decide
example : keyMatches "zfs_version" "ZFSVersion" = false := by decide
example : keyMatches "output_version" "OutputVersion" = false := by decide

/-!
## The decoded data model

Go struct types of `pool_status_json.go` / `version.go`, with the source's
field names (`Class` is rendered `DevClass`).  Go's `int` on the targeted
64-bit platforms and `int64` are both modelled as `Int` constrained to the
signed 64-bit range at decode time.  `map[string]T` fields are modelled as
association lists in first-insertion order.  `VdevStatusT` is recursive in
Go; here its fifteen scalar fields are grouped in `VdevScalars` and the
recursive `Vdevs` map is the second component.
-/

/-- `ZFSCommandOutputVersionT` (tags `command`, `major`, `minor`). -/
structure ZFSCommandOutputVersionT where
  Command : String
  Major : Int
  Minor : Int
deriving DecidableEq

/-- `ZFSVersionT` (tags `userland`, `kernel` in `pool_status_json.go`;
the same shape appears untagged in `version.go`). -/
structure ZFSVersionT where
  Userland : String
  Kernel : String
deriving DecidableEq

/-- `ZFSVersionOutputT` (tags `output_version`, `zfs_version` in
`pool_status_json.go`; untagged in `version.go`). -/
structure ZFSVersionOutputT where
  OutputVersion : ZFSCommandOutputVersionT
  ZFSVersion : ZFSVersionT
deriving DecidableEq

/-- `ScanStatsT` with its fifteen tagged fields. -/
structure ScanStatsT where
  Function : String
  State : String
  StartTime : Int
  EndTime : Int
  ToExamine : Int
  Examined : Int
  Skipped : Int
  Processed : Int
  Errors : Int
  BytesPerScan : Int
  PassStart : Int
  ScrubPause : Int
  ScrubSpentPaused : Int
  IssuedBytesPerScan : Int
  Issued : Int
deriving DecidableEq

/-- The fifteen scalar fields of `VdevStatusT` (source field `Class` is
`DevClass` here). -/
structure VdevScalars where
  Name : String
  VdevType : String
  Guid : Int
  Path : String
  PhysPath : String
  Devid : String
  DevClass : String
  State : String
  Parent : String
  RepDevSize : Int
  PhysSpace : Int
  ReadErrors : Int
  WriteErrors : Int
  ChecksumErrors : Int
  SlowIos : Int
deriving DecidableEq

/-- `VdevStatusT`: the scalar fields plus the recursive
`Vdevs map[string]VdevStatusT` children mapping. -/
inductive VdevStatusT where
  | mk (scalars : VdevScalars) (Vdevs : List (String × VdevStatusT))

/-- The scalar fields of a vdev. -/
def VdevStatusT.scalars : VdevStatusT → VdevScalars
  | .mk s _ => s

/-- The children mapping of a vdev. -/
def VdevStatusT.Vdevs : VdevStatusT → List (String × VdevStatusT)
  | .mk _ k => k

/-- `PoolStatusT`. -/
structure PoolStatusT where
  Name : String
  State : String
  PoolGuid : Int
  Txg : Int
  SpaVersion : Int
  ZplVersion : Int
  Status : String
  Action : String
  Moreinfo : String
  ScanStats : ScanStatsT
  Vdevs : List (String × VdevStatusT)

/-- `ZpoolStatusOutputT` (tags `output_version`, `pools`). -/
structure ZpoolStatusOutputT where
  OutputVersion : ZFSCommandOutputVersionT
  Pools : List (String × PoolStatusT)

/-- Zero value of `ZFSCommandOutputVersionT`. -/
def zeroOutputVersion : ZFSCommandOutputVersionT := ⟨"", 0, 0⟩

/-- Zero value of `ZFSVersionT`. -/
def zeroZFSVersion : ZFSVersionT := ⟨"", ""⟩

/-- Zero value of `ZFSVersionOutputT`. -/
def zeroVersionOutput : ZFSVersionOutputT := ⟨zeroOutputVersion, zeroZFSVersion⟩

/-- Zero value of `ScanStatsT`. -/
def zeroScanStats : ScanStatsT := ⟨"", "", 0, 0, 0, 0, 0, 0, 0, 0, 0, 0, 0, 0, 0⟩

/-- Zero value of `VdevScalars`. -/
def zeroVdevScalars : VdevScalars := ⟨"", "", 0, "", "", "", "", "", "", 0, 0, 0, 0, 0, 0⟩

/-- Zero value of `VdevStatusT` (nil children map). -/
def zeroVdev : VdevStatusT := .mk zeroVdevScalars []

/-- Zero value of `PoolStatusT`. -/
def zeroPoolStatus : PoolStatusT :=
  ⟨"", "", 0, 0, 0, 0, "", "", "", zeroScanStats, []⟩

/-- Zero value of `ZpoolStatusOutputT`. -/
def zeroStatusOutput : ZpoolStatusOutputT := ⟨zeroOutputVersion, []⟩

/-!
## Scalar field decoding

`Unmarshal` into a `string` field accepts a JSON string; into an
`int`/`int64` field accepts a JSON number that fits the signed 64-bit range
(`strconv.ParseInt` fails on overflow, yielding an `UnmarshalTypeError`);
JSON `null` leaves the current value unchanged and produces no error; any
other shape is an `UnmarshalTypeError`.
-/

/-- Smallest `int64`. -/
def int64Min : Int := -(2 ^ 63)

/-- Largest `int64`. -/
def int64Max : Int := 2 ^ 63 - 1

/-- Decode a JSON value into a Go `string` field holding `old`. -/
def decStringField (jv : Json) (old : String) : Except String String :=
  match jv with
  | .null => .ok old
  | .str s => .ok s
  | _ => .error "cannot unmarshal value into Go field of type string"

/-- Decode a JSON value into a Go `int`/`int64` field holding `old`. -/
def decIntField (jv : Json) (old : Int) : Except String Int :=
  match jv with
  | .null => .ok old
  | .num n =>
    if int64Min ≤ n ∧ n ≤ int64Max then .ok n
    else .error "cannot unmarshal number into Go field of type int64"
  | _ => .error "cannot unmarshal value into Go field of type int64"

/-!
## Decoders for the non-recursive envelope types
-/

/-- Fold one JSON object member into a `ZFSCommandOutputVersionT` under the
tags `command` / `major` / `minor`; unknown keys are ignored. -/
def setOutputVersionField (k : String) (jv : Json) (acc : ZFSCommandOutputVersionT) :
    Except String ZFSCommandOutputVersionT :=
  if keyMatches k "command" then
    match decStringField jv acc.Command with
    | .ok s => .ok { acc with Command := s }
    | .error e => .error e
  else if keyMatches k "major" then
    match decIntField jv acc.Major with
    | .ok n => .ok { acc with Major := n }
    | .error e => .error e
  else if keyMatches k "minor" then
    match decIntField jv acc.Minor with
    | .ok n => .ok { acc with Minor := n }
    | .error e => .error e
  else .ok acc

/-- Fold a member list into a `ZFSCommandOutputVersionT`. -/
def decodeOutputVersionFields (fields : List (String × Json))
    (acc : ZFSCommandOutputVersionT) : Except String ZFSCommandOutputVersionT :=
  match fields with
  | [] => .ok acc
  | (k, jv) :: rest =>
    match setOutputVersionField k jv acc with
    | .ok acc' => decodeOutputVersionFields rest acc'
    | .error e => .error e

/-- Decode a JSON value into a `ZFSCommandOutputVersionT` holding `old`
(JSON `null` leaves a struct unchanged). -/
def decodeOutputVersion (jv : Json) (old : ZFSCommandOutputVersionT) :
    Except String ZFSCommandOutputVersionT :=
  match jv with
  | .null => .ok old
  | .obj fields => decodeOutputVersionFields fields old
  | _ => .error "cannot unmarshal value into Go struct ZFSCommandOutputVersionT"

/-- Fold one member into a `ZFSVersionT` under the tags
`userland` / `kernel` of `pool_status_json.go`. -/
def setZFSVersionField (k : String) (jv : Json) (acc : ZFSVersionT) :
    Except String ZFSVersionT :=
  if keyMatches k "userland" then
    match decStringField jv acc.Userland with
    | .ok s => .ok { acc with Userland := s }
    | .error e => .error e
  else if keyMatches k "kernel" then
    match decStringField jv acc.Kernel with
    | .ok s => .ok { acc with Kernel := s }
    | .error e => .error e
  else .ok acc

/-- Fold a member list into a `ZFSVersionT`. -/
def decodeZFSVersionFields (fields : List (String × Json)) (acc : ZFSVersionT) :
    Except String ZFSVersionT :=
  match fields with
  | [] => .ok acc
  | (k, jv) :: rest =>
    match setZFSVersionField k jv acc with
    | .ok acc' => decodeZFSVersionFields rest acc'
    | .error e => .error e

/-- Decode a JSON value into a `ZFSVersionT` holding `old`. -/
def decodeZFSVersion (jv : Json) (old : ZFSVersionT) : Except String ZFSVersionT :=
  match jv with
  | .null => .ok old
  | .obj fields => decodeZFSVersionFields fields old
  | _ => .error "cannot unmarshal value into Go struct ZFSVersionT"

/-- Fold one member into the tagged `ZFSVersionOutputT` of
`pool_status_json.go` (tags `output_version`, `zfs_version`). -/
def setVersionOutputField (k : String) (jv : Json) (acc : ZFSVersionOutputT) :
    Except String ZFSVersionOutputT :=
  if keyMatches k "output_version" then
    match decodeOutputVersion jv acc.OutputVersion with
    | .ok v => .ok { acc with OutputVersion := v }
    | .error e => .error e
  else if keyMatches k "zfs_version" then
    match decodeZFSVersion jv acc.ZFSVersion with
    | .ok v => .ok { acc with ZFSVersion := v }
    | .error e => .error e
  else .ok acc

/-- Fold a member list into the tagged `ZFSVersionOutputT`. -/
def decodeVersionOutputFields (fields : List (String × Json)) (acc : ZFSVersionOutputT) :
    Except String ZFSVersionOutputT :=
  match fields with
  | [] => .ok acc
  | (k, jv) :: rest =>
    match setVersionOutputField k jv acc with
    | .ok acc' => decodeVersionOutputFields rest acc'
    | .error e => .error e

/-- `json.Unmarshal` into the tagged `ZFSVersionOutputT` of
`pool_status_json.go`, given an already parsed document. -/
def decodeVersionOutputTagged (j : Json) : Except String ZFSVersionOutputT :=
  match j with
  | .null => .ok zeroVersionOutput
  | .obj fields => decodeVersionOutputFields fields zeroVersionOutput
  | _ => .error "cannot unmarshal value into Go struct ZFSVersionOutputT"

/-!
### The untagged version structs of `version.go`

`version.go` declares `OutputVersionT` / `ZFSVersionT` / `ZFSVersionOutputT`
with exported fields but *no* JSON tags, so `Unmarshal` matches object keys
against the field names themselves (`OutputVersion`, `ZFSVersion`,
`Userland`, ...).  The wire keys `output_version` and `zfs_version` match
neither exactly nor case-insensitively (the underscore survives folding), so
the two top-level members of the actual tool output are ignored as unknown
fields.
-/

/-- Fold one member into `version.go`'s untagged `OutputVersionT`
(field names `Command` / `Major` / `Minor`). -/
def setOutputVersionFieldNoTags (k : String) (jv : Json) (acc : ZFSCommandOutputVersionT) :
    Except String ZFSCommandOutputVersionT :=
  if keyMatches k "Command" then
    match decStringField jv acc.Command with
    | .ok s => .ok { acc with Command := s }
    | .error e => .error e
  else if keyMatches k "Major" then
    match decIntField jv acc.Major with
    | .ok n => .ok { acc with Major := n }
    | .error e => .error e
  else if keyMatches k "Minor" then
    match decIntField jv acc.Minor with
    | .ok n => .ok { acc with Minor := n }
    | .error e => .error e
  else .ok acc

/-- Fold a member list into `version.go`'s untagged `OutputVersionT`. -/
def decodeOutputVersionFieldsNoTags (fields : List (String × Json))
    (acc : ZFSCommandOutputVersionT) : Except String ZFSCommandOutputVersionT :=
  match fields with
  | [] => .ok acc
  | (k, jv) :: rest =>
    match setOutputVersionFieldNoTags k jv acc with
    | .ok acc' => decodeOutputVersionFieldsNoTags rest acc'
    | .error e => .error e

/-- Decode a JSON value into `version.go`'s untagged `OutputVersionT`. -/
def decodeOutputVersionNoTags (jv : Json) (old : ZFSCommandOutputVersionT) :
    Except String ZFSCommandOutputVersionT :=
  match jv with
  | .null => .ok old
  | .obj fields => decodeOutputVersionFieldsNoTags fields old
  | _ => .error "cannot unmarshal value into Go struct OutputVersionT"

/-- Fold one member into `version.go`'s untagged `ZFSVersionT`
(field names `Userland` / `Kernel`). -/
def setZFSVersionFieldNoTags (k : String) (jv : Json) (acc : ZFSVersionT) :
    Except String ZFSVersionT :=
  if keyMatches k "Userland" then
    match decStringField jv acc.Userland with
    | .ok s => .ok { acc with Userland := s }
    | .error e => .error e
  else if keyMatches k "Kernel" then
    match decStringField jv acc.Kernel with
    | .ok s => .ok { acc with Kernel := s }
    | .error e => .error e
  else .ok acc

/-- Fold a member list into `version.go`'s untagged `ZFSVersionT`. -/
def decodeZFSVersionFieldsNoTags (fields : List (String × Json)) (acc : ZFSVersionT) :
    Except String ZFSVersionT :=
  match fields with
  | [] => .ok acc
  | (k, jv) :: rest =>
    match setZFSVersionFieldNoTags k jv acc with
    | .ok acc' => decodeZFSVersionFieldsNoTags rest acc'
    | .error e => .error e

/-- Decode a JSON value into `version.go`'s untagged `ZFSVersionT`. -/
def decodeZFSVersionNoTags (jv : Json) (old : ZFSVersionT) : Except String ZFSVersionT :=
  match jv with
  | .null => .ok old
  | .obj fields => decodeZFSVersionFieldsNoTags fields old
  | _ => .error "cannot unmarshal value into Go struct ZFSVersionT"

/-- Fold one member into `version.go`'s untagged `ZFSVersionOutputT`
(field names `OutputVersion` / `ZFSVersion`). -/
def setVersionOutputFieldNoTags (k : String) (jv : Json) (acc : ZFSVersionOutputT) :
    Except String ZFSVersionOutputT :=
  if keyMatches k "OutputVersion" then
    match decodeOutputVersionNoTags jv acc.OutputVersion with
    | .ok v => .ok { acc with OutputVersion := v }
    | .error e => .error e
  else if keyMatches k "ZFSVersion" then
    match decodeZFSVersionNoTags jv acc.ZFSVersion with
    | .ok v => .ok { acc with ZFSVersion := v }
    | .error e => .error e
  else .ok acc

/-- Fold a member list into `version.go`'s untagged `ZFSVersionOutputT`. -/
def decodeVersionOutputFieldsNoTags (fields : List (String × Json)) (acc : ZFSVersionOutputT) :
    Except String ZFSVersionOutputT :=
  match fields with
  | [] => .ok acc
  | (k, jv) :: rest =>
    match setVersionOutputFieldNoTags k jv acc with
    | .ok acc' => decodeVersionOutputFieldsNoTags rest acc'
    | .error e => .error e

/-- `json.Unmarshal` into `version.go`'s untagged `ZFSVersionOutputT`. -/
def decodeVersionOutputNoTags (j : Json) : Except String ZFSVersionOutputT :=
  match j with
  | .null => .ok zeroVersionOutput
  | .obj fields => decodeVersionOutputFieldsNoTags fields zeroVersionOutput
  | _ => .error "cannot unmarshal value into Go struct ZFSVersionOutputT"

/-- `json.Unmarshal` into the older file's `ZFSVersionOutput`, whose fields
(`output_version`, `zfs_version`, and those of its inner structs) are all
unexported: `encoding/json` cannot set unexported fields and skips every
object member, so any JSON object decodes to the zero value. -/
def decodeVersionOutputUnexported (j : Json) : Except String ZFSVersionOutputT :=
  match j with
  | .null => .ok zeroVersionOutput
  | .obj _ => .ok zeroVersionOutput
  | _ => .error "cannot unmarshal value into Go struct ZFSVersionOutput"

/-!
## Decoding the pool status payload
-/

/-- Fold one member into a `ScanStatsT` under its tags. -/
def setScanField (k : String) (jv : Json) (acc : ScanStatsT) : Except String ScanStatsT :=
  if keyMatches k "function" then
    match decStringField jv acc.Function with
    | .ok s => .ok { acc with Function := s }
    | .error e => .error e
  else if keyMatches k "state" then
    match decStringField jv acc.State with
    | .ok s => .ok { acc with State := s }
    | .error e => .error e
  else if keyMatches k "start_time" then
    match decIntField jv acc.StartTime with
    | .ok n => .ok { acc with StartTime := n }
    | .error e => .error e
  else if keyMatches k "end_time" then
    match decIntField jv acc.EndTime with
    | .ok n => .ok { acc with EndTime := n }
    | .error e => .error e
  else if keyMatches k "to_examine" then
    match decIntField jv acc.ToExamine with
    | .ok n => .ok { acc with ToExamine := n }
    | .error e => .error e
  else if keyMatches k "examined" then
    match decIntField jv acc.Examined with
    | .ok n => .ok { acc with Examined := n }
    | .error e => .error e
  else if keyMatches k "skipped" then
    match decIntField jv acc.Skipped with
    | .ok n => .ok { acc with Skipped := n }
    | .error e => .error e
  else if keyMatches k "processed" then
    match decIntField jv acc.Processed with
    | .ok n => .ok { acc with Processed := n }
    | .error e => .error e
  else if keyMatches k "errors" then
    match decIntField jv acc.Errors with
    | .ok n => .ok { acc with Errors := n }
    | .error e => .error e
  else if keyMatches k "bytes_per_scan" then
    match decIntField jv acc.BytesPerScan with
    | .ok n => .ok { acc with BytesPerScan := n }
    | .error e => .error e
  else if keyMatches k "pass_start" then
    match decIntField jv acc.PassStart with
    | .ok n => .ok { acc with PassStart := n }
    | .error e => .error e
  else if keyMatches k "scrub_pause" then
    match decIntField jv acc.ScrubPause with
    | .ok n => .ok { acc with ScrubPause := n }
    | .error e => .error e
  else if keyMatches k "scrub_spent_paused" then
    match decIntField jv acc.ScrubSpentPaused with
    | .ok n => .ok { acc with ScrubSpentPaused := n }
    | .error e => .error e
  else if keyMatches k "issued_bytes_per_scan" then
    match decIntField jv acc.IssuedBytesPerScan with
    | .ok n => .ok { acc with IssuedBytesPerScan := n }
    | .error e => .error e
  else if keyMatches k "issued" then
    match decIntField jv acc.Issued with
    | .ok n => .ok { acc with Issued := n }
    | .error e => .error e
  else .ok acc

/-- Fold a member list into a `ScanStatsT`. -/
def decodeScanFields (fields : List (String × Json)) (acc : ScanStatsT) :
    Except String ScanStatsT :=
  match fields with
  | [] => .ok acc
  | (k, jv) :: rest =>
    match setScanField k jv acc with
    | .ok acc' => decodeScanFields rest acc'
    | .error e => .error e

/-- Decode a JSON value into a `ScanStatsT` holding `old`. -/
def decodeScanStats (jv : Json) (old : ScanStatsT) : Except String ScanStatsT :=
  match jv with
  | .null => .ok old
  | .obj fields => decodeScanFields fields old
  | _ => .error "cannot unmarshal value into Go struct ScanStatsT"

/-- Fold one member into the scalar fields of a `VdevStatusT`
(the recursive `vdevs` member is handled by `decodeVdevFields`). -/
def setVdevScalar (k : String) (jv : Json) (acc : VdevScalars) : Except String VdevScalars :=
  if keyMatches k "name" then
    match decStringField jv acc.Name with
    | .ok s => .ok { acc with Name := s }
    | .error e => .error e
  else if keyMatches k "vdev_type" then
    match decStringField jv acc.VdevType with
    | .ok s => .ok { acc with VdevType := s }
    | .error e => .error e
  else if keyMatches k "guid" then
    match decIntField jv acc.Guid with
    | .ok n => .ok { acc with Guid := n }
    | .error e => .error e
  else if keyMatches k "path" then
    match decStringField jv acc.Path with
    | .ok s => .ok { acc with Path := s }
    | .error e => .error e
  else if keyMatches k "phys_path" then
    match decStringField jv acc.PhysPath with
    | .ok s => .ok { acc with PhysPath := s }
    | .error e => .error e
  else if keyMatches k "devid" then
    match decStringField jv acc.Devid with
    | .ok s => .ok { acc with Devid := s }
    | .error e => .error e
  else if keyMatches k "class" then
    match decStringField jv acc.DevClass with
    | .ok s => .ok { acc with DevClass := s }
    | .error e => .error e
  else if keyMatches k "state" then
    match decStringField jv acc.State with
    | .ok s => .ok { acc with State := s }
    | .error e => .error e
  else if keyMatches k "parent" then
    match decStringField jv acc.Parent with
    | .ok s => .ok { acc with Parent := s }
    | .error e => .error e
  else if keyMatches k "rep_dev_size" then
    match decIntField jv acc.RepDevSize with
    | .ok n => .ok { acc with RepDevSize := n }
    | .error e => .error e
  else if keyMatches k "phys_space" then
    match decIntField jv acc.PhysSpace with
    | .ok n => .ok { acc with PhysSpace := n }
    | .error e => .error e
  else if keyMatches k "read_errors" then
    match decIntField jv acc.ReadErrors with
    | .ok n => .ok { acc with ReadErrors := n }
    | .error e => .error e
  else if keyMatches k "write_errors" then
    match decIntField jv acc.WriteErrors with
    | .ok n => .ok { acc with WriteErrors := n }
    | .error e => .error e
  else if keyMatches k "checksum_errors" then
    match decIntField jv acc.ChecksumErrors with
    | .ok n => .ok { acc with ChecksumErrors := n }
    | .error e => .error e
  else if keyMatches k "slow_ios" then
    match decIntField jv acc.SlowIos with
    | .ok n => .ok { acc with SlowIos := n }
    | .error e => .error e
  else .ok acc

/-- Insert into a Go map modelled as an association list: an existing key is
overwritten in place, a fresh key is appended. -/
def insertEntry {α : Type} (k : String) (v : α) : List (String × α) → List (String × α)
  | [] => [(k, v)]
  | (k', v') :: rest =>
    if k' = k then (k, v) :: rest else (k', v') :: insertEntry k v rest

mutual

/-- `json.Unmarshal` of one JSON value into a fresh `VdevStatusT`
(used for the values of a `map[string]VdevStatusT`). -/
def decodeVdev (j : Json) : Except String VdevStatusT :=
  match j with
  | .null => .ok zeroVdev
  | .obj fields => decodeVdevFields fields zeroVdevScalars []
  | _ => .error "cannot unmarshal value into Go struct VdevStatusT"

/-- Fold the member list of a vdev object: the `vdevs` member recurses into
the children mapping, every other member goes through `setVdevScalar`. -/
def decodeVdevFields (fields : List (String × Json)) (acc : VdevScalars)
    (kids : List (String × VdevStatusT)) : Except String VdevStatusT :=
  match fields with
  | [] => .ok (.mk acc kids)
  | (k, jv) :: rest =>
    if keyMatches k "vdevs" then
      match jv with
      | .null => decodeVdevFields rest acc []
      | .obj kidFields =>
        match decodeVdevEntries kidFields kids with
        | .ok kids' => decodeVdevFields rest acc kids'
        | .error e => .error e
      | _ => .error "cannot unmarshal value into Go map of VdevStatusT"
    else
      match setVdevScalar k jv acc with
      | .ok acc' => decodeVdevFields rest acc' kids
      | .error e => .error e

/-- Decode the members of a `vdevs` JSON object into the children mapping,
inserting each decoded child under its key. -/
def decodeVdevEntries (entries : List (String × Json))
    (acc : List (String × VdevStatusT)) : Except String (List (String × VdevStatusT)) :=
  match entries with
  | [] => .ok acc
  | (k, jv) :: rest =>
    match decodeVdev jv with
    | .ok v => decodeVdevEntries rest (insertEntry k v acc)
    | .error e => .error e

end

/-- Fold one member into a `PoolStatusT` under its tags. -/
def setPoolField (k : String) (jv : Json) (acc : PoolStatusT) : Except String PoolStatusT :=
  if keyMatches k "name" then
    match decStringField jv acc.Name with
    | .ok s => .ok { acc with Name := s }
    | .error e => .error e
  else if keyMatches k "state" then
    match decStringField jv acc.State with
    | .ok s => .ok { acc with State := s }
    | .error e => .error e
  else if keyMatches k "pool_guid" then
    match decIntField jv acc.PoolGuid with
    | .ok n => .ok { acc with PoolGuid := n }
    | .error e => .error e
  else if keyMatches k "txg" then
    match decIntField jv acc.Txg with
    | .ok n => .ok { acc with Txg := n }
    | .error e => .error e
  else if keyMatches k "spa_version" then
    match decIntField jv acc.SpaVersion with
    | .ok n => .ok { acc with SpaVersion := n }
    | .error e => .error e
  else if keyMatches k "zpl_version" then
    match decIntField jv acc.ZplVersion with
    | .ok n => .ok { acc with ZplVersion := n }
    | .error e => .error e
  else if keyMatches k "status" then
    match decStringField jv acc.Status with
    | .ok s => .ok { acc with Status := s }
    | .error e => .error e
  else if keyMatches k "action" then
    match decStringField jv acc.Action with
    | .ok s => .ok { acc with Action := s }
    | .error e => .error e
  else if keyMatches k "moreinfo" then
    match decStringField jv acc.Moreinfo with
    | .ok s => .ok { acc with Moreinfo := s }
    | .error e => .error e
  else if keyMatches k "scan_stats" then
    match decodeScanStats jv acc.ScanStats with
    | .ok st => .ok { acc with ScanStats := st }
    | .error e => .error e
  else if keyMatches k "vdevs" then
    match jv with
    | .null => .ok { acc with Vdevs := [] }
    | .obj kidFields =>
      match decodeVdevEntries kidFields acc.Vdevs with
      | .ok kids => .ok { acc with Vdevs := kids }
      | .error e => .error e
    | _ => .error "cannot unmarshal value into Go map of VdevStatusT"
  else .ok acc

/-- Fold a member list into a `PoolStatusT`. -/
def decodePoolFields (fields : List (String × Json)) (acc : PoolStatusT) :
    Except String PoolStatusT :=
  match fields with
  | [] => .ok acc
  | (k, jv) :: rest =>
    match setPoolField k jv acc with
    | .ok acc' => decodePoolFields rest acc'
    | .error e => .error e

/-- Decode one JSON value into a fresh `PoolStatusT`
(used for the values of the `pools` map). -/
def decodePool (j : Json) : Except String PoolStatusT :=
  match j with
  | .null => .ok zeroPoolStatus
  | .obj fields => decodePoolFields fields zeroPoolStatus
  | _ => .error "cannot unmarshal value into Go struct PoolStatusT"

/-- Decode the members of the `pools` JSON object into the pool mapping. -/
def decodePoolEntries (entries : List (String × Json))
    (acc : List (String × PoolStatusT)) : Except String (List (String × PoolStatusT)) :=
  match entries with
  | [] => .ok acc
  | (k, jv) :: rest =>
    match decodePool jv with
    | .ok p => decodePoolEntries rest (insertEntry k p acc)
    | .error e => .error e

/-- Fold one member into a `ZpoolStatusOutputT` under the tags
`output_version` / `pools`. -/
def setStatusOutputField (k : String) (jv : Json) (acc : ZpoolStatusOutputT) :
    Except String ZpoolStatusOutputT :=
  if keyMatches k "output_version" then
    match decodeOutputVersion jv acc.OutputVersion with
    | .ok v => .ok { acc with OutputVersion := v }
    | .error e => .error e
  else if keyMatches k "pools" then
    match jv with
    | .null => .ok { acc with Pools := [] }
    | .obj poolFields =>
      match decodePoolEntries poolFields acc.Pools with
      | .ok ps => .ok { acc with Pools := ps }
      | .error e => .error e
    | _ => .error "cannot unmarshal value into Go map of PoolStatusT"
  else .ok acc

/-- Fold a member list into a `ZpoolStatusOutputT`. -/
def decodeStatusOutputFields (fields : List (String × Json)) (acc : ZpoolStatusOutputT) :
    Except String ZpoolStatusOutputT :=
  match fields with
  | [] => .ok acc
  | (k, jv) :: rest =>
    match setStatusOutputField k jv acc with
    | .ok acc' => decodeStatusOutputFields rest acc'
    | .error e => .error e

/-- `json.Unmarshal` into `ZpoolStatusOutputT`, given a parsed document. -/
def decodeStatusOutput (j : Json) : Except String ZpoolStatusOutputT :=
  match j with
  | .null => .ok zeroStatusOutput
  | .obj fields => decodeStatusOutputFields fields zeroStatusOutput
  | _ => .error "cannot unmarshal value into Go struct ZpoolStatusOutputT"

/-- `json.Unmarshal(stdo, &o)` for `ZpoolStatusViaJSON`: parse the captured
stdout bytes, then decode into `ZpoolStatusOutputT`.  Unparseable input (in
particular empty input) is the syntax error `Unmarshal` reports. -/
def unmarshalStatusOutput (s : String) : Except String ZpoolStatusOutputT :=
  match parseJson s with
  | none => .error "invalid JSON"
  | some j => decodeStatusOutput j

/-- `json.Unmarshal(stdo, &o)` for `GetZFSVersionViaJSON` (tagged structs). -/
def unmarshalVersionOutputTagged (s : String) : Except String ZFSVersionOutputT :=
  match parseJson s with
  | none => .error "invalid JSON"
  | some j => decodeVersionOutputTagged j

/-- `json.Unmarshal(stdo, &o)` for `version.go`'s `GetZFSVersion`
(exported but untagged structs). -/
def unmarshalVersionOutputNoTags (s : String) : Except String ZFSVersionOutputT :=
  match parseJson s with
  | none => .error "invalid JSON"
  | some j => decodeVersionOutputNoTags j

set_option maxRecDepth 8000 in
example :
    unmarshalStatusOutput
      "\x7b\"output_version\":\x7b\"command\":\"zpool status\",\"major\":0,\"minor\":1\x7d,\"pools\":\x7b\"tank\":\x7b\"name\":\"tank\",\"state\":\"ONLINE\",\"vdevs\":\x7b\x7d\x7d\x7d\x7d" =
    .ok ⟨⟨"zpool status", 0, 1⟩,
         [("tank", { zeroPoolStatus with Name := "tank", State := "ONLINE" })]⟩ := rfl

/-!
## Canonical wire form

`encodeVdev` and friends render a decoded value back into the JSON wire
shape of the tools (every tag present, in declaration order).  They are the
"well-formed JSON envelope matching the wire shape" side of the
field-reproduction property: decoding such a document must reproduce every
field exactly.
-/

mutual

/-- The canonical wire-shaped document of a `VdevStatusT`. -/
def encodeVdev : VdevStatusT → Json
  | .mk s kids => .obj
      [("name", .str s.Name), ("vdev_type", .str s.VdevType), ("guid", .num s.Guid),
       ("path", .str s.Path), ("phys_path", .str s.PhysPath), ("devid", .str s.Devid),
       ("class", .str s.DevClass), ("state", .str s.State), ("parent", .str s.Parent),
       ("rep_dev_size", .num s.RepDevSize), ("phys_space", .num s.PhysSpace),
       ("read_errors", .num s.ReadErrors), ("write_errors", .num s.WriteErrors),
       ("checksum_errors", .num s.ChecksumErrors), ("slow_ios", .num s.SlowIos),
       ("vdevs", .obj (encodeVdevEntries kids))]

/-- The wire form of a children mapping. -/
def encodeVdevEntries : List (String × VdevStatusT) → List (String × Json)
  | [] => []
  | (k, v) :: rest => (k, encodeVdev v) :: encodeVdevEntries rest

end

/-- The wire form of a `ZFSCommandOutputVersionT`. -/
def encodeOutputVersion (v : ZFSCommandOutputVersionT) : Json :=
  .obj [("command", .str v.Command), ("major", .num v.Major), ("minor", .num v.Minor)]

/-- The wire form of a `ScanStatsT`. -/
def encodeScanStats (s : ScanStatsT) : Json :=
  .obj
    [("function", .str s.Function), ("state", .str s.State),
     ("start_time", .num s.StartTime), ("end_time", .num s.EndTime),
     ("to_examine", .num s.ToExamine), ("examined", .num s.Examined),
     ("skipped", .num s.Skipped), ("processed", .num s.Processed),
     ("errors", .num s.Errors), ("bytes_per_scan", .num s.BytesPerScan),
     ("pass_start", .num s.PassStart), ("scrub_pause", .num s.ScrubPause),
     ("scrub_spent_paused", .num s.ScrubSpentPaused),
     ("issued_bytes_per_scan", .num s.IssuedBytesPerScan), ("issued", .num s.Issued)]

/-- The wire form of a `PoolStatusT`. -/
def encodePool (p : PoolStatusT) : Json :=
  .obj
    [("name", .str p.Name), ("state", .str p.State), ("pool_guid", .num p.PoolGuid),
     ("txg", .num p.Txg), ("spa_version", .num p.SpaVersion),
     ("zpl_version", .num p.ZplVersion), ("status", .str p.Status),
     ("action", .str p.Action), ("moreinfo", .str p.Moreinfo),
     ("scan_stats", encodeScanStats p.ScanStats),
     ("vdevs", .obj (encodeVdevEntries p.Vdevs))]

/-- The wire form of a pool mapping. -/
def encodePoolEntries : List (String × PoolStatusT) → List (String × Json)
  | [] => []
  | (k, p) :: rest => (k, encodePool p) :: encodePoolEntries rest

/-- The wire form of a `ZpoolStatusOutputT`. -/
def encodeStatusOutput (o : ZpoolStatusOutputT) : Json :=
  .obj [("output_version", encodeOutputVersion o.OutputVersion),
        ("pools", .obj (encodePoolEntries o.Pools))]

/-!
## Well-formedness

A decoded value is representable on the wire exactly when all of its
integer fields fit the signed 64-bit range and all map keys are distinct
(Go maps cannot hold duplicate keys).
-/

/-- A value fits a Go `int`/`int64` field. -/
def intOKb (n : Int) : Bool := decide (int64Min ≤ n ∧ n ≤ int64Max)

/-- `k` does not occur among the keys of `l`. -/
def keyFreeb {α : Type} (k : String) (l : List (String × α)) : Bool :=
  l.all fun e => !(e.1 == k)

/-- The keys of an association list are pairwise distinct. -/
def nodupKeysb {α : Type} : List (String × α) → Bool
  | [] => true
  | (k, _) :: rest => keyFreeb k rest && nodupKeysb rest

mutual

/-- Well-formedness of a `VdevStatusT`: every integer field in 64-bit
range, children keys distinct, children well-formed. -/
def vdevWFb : VdevStatusT → Bool
  | .mk s kids =>
    intOKb s.Guid && intOKb s.RepDevSize && intOKb s.PhysSpace &&
    intOKb s.ReadErrors && intOKb s.WriteErrors && intOKb s.ChecksumErrors &&
    intOKb s.SlowIos && nodupKeysb kids && vdevListWFb kids

/-- Well-formedness of a children mapping. -/
def vdevListWFb : List (String × VdevStatusT) → Bool
  | [] => true
  | (_, v) :: rest => vdevWFb v && vdevListWFb rest

end

/-- Well-formedness of a `ZFSCommandOutputVersionT`. -/
def outputVersionWFb (v : ZFSCommandOutputVersionT) : Bool :=
  intOKb v.Major && intOKb v.Minor

/-- Well-formedness of a `ScanStatsT`. -/
def scanWFb (s : ScanStatsT) : Bool :=
  intOKb s.StartTime && intOKb s.EndTime && intOKb s.ToExamine &&
  intOKb s.Examined && intOKb s.Skipped && intOKb s.Processed &&
  intOKb s.Errors && intOKb s.BytesPerScan && intOKb s.PassStart &&
  intOKb s.ScrubPause && intOKb s.ScrubSpentPaused &&
  intOKb s.IssuedBytesPerScan && intOKb s.Issued

/-- Well-formedness of a `PoolStatusT`. -/
def poolWFb (p : PoolStatusT) : Bool :=
  intOKb p.PoolGuid && intOKb p.Txg && intOKb p.SpaVersion &&
  intOKb p.ZplVersion && scanWFb p.ScanStats && nodupKeysb p.Vdevs &&
  vdevListWFb p.Vdevs

/-- Well-formedness of a pool mapping. -/
def poolListWFb : List (String × PoolStatusT) → Bool
  | [] => true
  | (_, p) :: rest => poolWFb p && poolListWFb rest

/-- Well-formedness of a `ZpoolStatusOutputT`. -/
def statusOutputWFb (o : ZpoolStatusOutputT) : Bool :=
  outputVersionWFb o.OutputVersion && nodupKeysb o.Pools && poolListWFb o.Pools

/-!
## Diagnostic Projection (`slog.LogValue`)

Each `LogValue` method builds a `slog.GroupValue` of string and integer
attributes; modelled as a list of key/attribute pairs, in source order.
-/

/-- A `slog` attribute value: `slog.String` or `slog.Int`/`slog.Int64`. -/
inductive AttrVal where
  | str (s : String) : AttrVal
  | int (n : Int) : AttrVal
deriving DecidableEq

/-- `VdevStatusT.LogValue`: the fifteen scalar fields verbatim plus
`num_vdevs` as the size of the children mapping. -/
def VdevStatusT.LogValue (o : VdevStatusT) : List (String × AttrVal) :=
  [("name", .str o.scalars.Name), ("vdev_type", .str o.scalars.VdevType),
   ("guid", .int o.scalars.Guid), ("path", .str o.scalars.Path),
   ("phys_path", .str o.scalars.PhysPath), ("devid", .str o.scalars.Devid),
   ("class", .str o.scalars.DevClass), ("state", .str o.scalars.State),
   ("parent", .str o.scalars.Parent), ("rep_dev_size", .int o.scalars.RepDevSize),
   ("phys_space", .int o.scalars.PhysSpace), ("read_errors", .int o.scalars.ReadErrors),
   ("write_errors", .int o.scalars.WriteErrors),
   ("checksum_errors", .int o.scalars.ChecksumErrors),
   ("slow_ios", .int o.scalars.SlowIos), ("num_vdevs", .int o.Vdevs.length)]

/-- `ScanStatsT.LogValue`: as in the source, the `issued` field is not
emitted, and the key of `bytes_per_scan` is the literal `BytesPerScan`. -/
def ScanStatsT.LogValue (o : ScanStatsT) : List (String × AttrVal) :=
  [("function", .str o.Function), ("state", .str o.State),
   ("start_time", .int o.StartTime), ("end_time", .int o.EndTime),
   ("to_examine", .int o.ToExamine), ("examined", .int o.Examined),
   ("skipped", .int o.Skipped), ("processed", .int o.Processed),
   ("errors", .int o.Errors), ("BytesPerScan", .int o.BytesPerScan),
   ("pass_start", .int o.PassStart), ("scrub_pause", .int o.ScrubPause),
   ("scrub_spent_paused", .int o.ScrubSpentPaused),
   ("issued_bytes_per_scan", .int o.IssuedBytesPerScan)]

/-- `PoolStatusT.LogValue`: the nine scalar fields verbatim (`moreinfo`
under the key `more_info`), `num_vdevs` as the size of the vdev mapping;
`scan_stats` is not emitted. -/
def PoolStatusT.LogValue (o : PoolStatusT) : List (String × AttrVal) :=
  [("name", .str o.Name), ("state", .str o.State), ("pool_guid", .int o.PoolGuid),
   ("txg", .int o.Txg), ("spa_version", .int o.SpaVersion),
   ("zpl_version", .int o.ZplVersion), ("status", .str o.Status),
   ("action", .str o.Action), ("more_info", .str o.Moreinfo),
   ("num_vdevs", .int o.Vdevs.length)]

/-- `ZpoolStatusOutputT.LogValue`. -/
def ZpoolStatusOutputT.LogValue (o : ZpoolStatusOutputT) : List (String × AttrVal) :=
  [("output_version.command", .str o.OutputVersion.Command),
   ("output_version.major", .int o.OutputVersion.Major),
   ("output_version.minor", .int o.OutputVersion.Minor),
   ("num_pools", .int o.Pools.length)]

/-- `ZFSVersionOutputT.LogValue`. -/
def ZFSVersionOutputT.LogValue (o : ZFSVersionOutputT) : List (String × AttrVal) :=
  [("output_version.command", .str o.OutputVersion.Command),
   ("output_version.major", .int o.OutputVersion.Major),
   ("output_version.minor", .int o.OutputVersion.Minor),
   ("zfs_version.userland", .str o.ZFSVersion.Userland),
   ("zfs_version.kernel", .str o.ZFSVersion.Kernel)]

/-!
## The process runner

`ZpoolStatusViaJSON`, `GetZFSVersionViaJSON` and `GetZFSVersion` share one
skeleton: create stdout and stderr pipes, `Start`, `io.ReadAll(stdout)`,
`io.ReadAll(stderr)` (its error discarded with `_`), `Wait`, then
`json.Unmarshal`.  A run is modelled by its observable events (`ProcEnv`);
the skeleton consumes them in exactly the source's order and produces the
Go return pair `(result pointer, error)`, modelled as two `Option`s.

`cmd.String()` is modelled as the space-joined argument vector (Go prefixes
the resolved binary path; the arguments are what identifies the command
line and the resolution is outside the repository).
-/

/-- Observable events of one run of the external process. -/
structure ProcEnv where
  /-- Error from `cmd.StdoutPipe()`, when it fails. -/
  stdoutPipeFail : Option String
  /-- Error from `cmd.StderrPipe()`, when it fails. -/
  stderrPipeFail : Option String
  /-- Error from `cmd.Start()`, when it fails. -/
  startFail : Option String
  /-- Result of `io.ReadAll(stdout)`: the captured bytes, or a read error. -/
  stdoutRead : Except String String
  /-- Bytes captured from stderr (complete or partial). -/
  stderrBytes : String
  /-- Whether `io.ReadAll(stderr)` succeeded; the source discards this. -/
  stderrReadOk : Bool
  /-- Error from `cmd.Wait()` (non-zero exit status), when the process
  did not exit 0. -/
  waitFail : Option String

/-- The failure values a query can return, as the distinct shapes the source
builds: the wrapped `%w` operand keeps the underlying error's dynamic type,
so each constructor corresponds to a distinguishable Go error value. -/
inductive RunError where
  /-- A pipe-setup error, returned bare (`return nil, err`). -/
  | pipeSetup (underlying : String) : RunError
  /-- `failed to start command '<cmd>': <err>` — the LaunchError. -/
  | launch (cmdline underlying : String) : RunError
  /-- `failed to read output of '<cmd>'; output: (<err>)` with an I/O error
  wrapped — the IOError. -/
  | readOut (cmdline underlying : String) : RunError
  /-- `failed to execute command '<cmd>'; output: '<stderr>' (<err>)` —
  the ExecutionError, carrying the trimmed diagnostic text. -/
  | execFail (cmdline stderrTrimmed underlying : String) : RunError
  /-- `failed to read output of '<cmd>'; output: (<err>)` with a JSON parse
  error wrapped — the DecodeError. -/
  | decodeFail (cmdline underlying : String) : RunError
deriving DecidableEq

/-- The message `error.Error()` renders, following the source's
`fmt.Errorf` format strings. -/
def RunError.message : RunError → String
  | .pipeSetup u => u
  | .launch c u => "failed to start command \x27" ++ c ++ "\x27: " ++ u
  | .readOut c u => "failed to read output of \x27" ++ c ++ "\x27; output: (" ++ u ++ ")"
  | .execFail c s u =>
      "failed to execute command \x27" ++ c ++ "\x27; output: \x27" ++ s ++ "\x27 (" ++ u ++ ")"
  | .decodeFail c u => "failed to read output of \x27" ++ c ++ "\x27; output: (" ++ u ++ ")"

/-- The failure classes of the error-handling design: pipe setup (returned
bare by the source), launch, primary-output read, non-zero exit, decode. -/
inductive FailClass where
  | pipeSetup : FailClass
  | launch : FailClass
  | readOut : FailClass
  | execFail : FailClass
  | decodeFail : FailClass
deriving DecidableEq

/-- The failure class a `RunError` belongs to.  In Go this classification is
available to the caller through `errors.As` on the wrapped error chain
(`*os.PathError` for reads, the `Wait` `*exec.ExitError`, a
`*json.SyntaxError`/`*json.UnmarshalTypeError` for decoding, ...). -/
def RunError.kind : RunError → FailClass
  | .pipeSetup _ => .pipeSetup
  | .launch _ _ => .launch
  | .readOut _ _ => .readOut
  | .execFail _ _ _ => .execFail
  | .decodeFail _ _ => .decodeFail

/-- `strings.TrimSpace`, applied to the captured stderr bytes. -/
def trimSpace (s : String) : String := ⟨(s.data.dropWhile isGoSpace).reverse.dropWhile isGoSpace |>.reverse⟩
where
  /-- The white space of `unicode.IsSpace` restricted to ASCII, which is all
  the tools emit. -/
  isGoSpace (c : Char) : Bool :=
    c = ' ' || c = '\t' || c = '\n' || c = '\r' ||
    c = Char.ofNat 11 || c = Char.ofNat 12

/-- The shared query skeleton, in the source's statement order. -/
def runQuery {α : Type} (cmdline : String) (unmarshal : String → Except String α)
    (env : ProcEnv) : Option α × Option RunError :=
  match env.stdoutPipeFail with
  | some e => (none, some (.pipeSetup e))
  | none =>
    match env.stderrPipeFail with
    | some e => (none, some (.pipeSetup e))
    | none =>
      match env.startFail with
      | some e => (none, some (.launch cmdline e))
      | none =>
        match env.stdoutRead with
        | .error e => (none, some (.readOut cmdline e))
        | .ok stdo =>
          match env.waitFail with
          | some e => (none, some (.execFail cmdline (trimSpace env.stderrBytes) e))
          | none =>
            match unmarshal stdo with
            | .error e => (none, some (.decodeFail cmdline e))
            | .ok a => (some a, none)

/-- The command line of the pool status query. -/
def zpoolStatusCmdline : String := "zpool status --json --json-int"

/-- The command line of the tool version query. -/
def zfsVersionCmdline : String := "zfs version --json"

/-- The command line of the alternate version query. -/
def zpoolListCmdline : String := "zpool --json --json-int list -Ho name"

/-- `ZpoolStatusViaJSON`: run `zpool status --json --json-int`, unmarshal
stdout into `ZpoolStatusOutputT`, and return `&o.Pools` on success. -/
def ZpoolStatusViaJSON (env : ProcEnv) :
    Option (List (String × PoolStatusT)) × Option RunError :=
  runQuery zpoolStatusCmdline
    (fun s => (unmarshalStatusOutput s).map (fun o => o.Pools)) env

/-- `GetZFSVersionViaJSON`: run `zfs version --json`, unmarshal stdout into
the tagged `ZFSVersionOutputT`, and return `&o.ZFSVersion.Userland`. -/
def GetZFSVersionViaJSON (env : ProcEnv) : Option String × Option RunError :=
  runQuery zfsVersionCmdline
    (fun s => (unmarshalVersionOutputTagged s).map (fun o => o.ZFSVersion.Userland)) env

/-- `version.go`'s `GetZFSVersion`: run
`zpool --json --json-int list -Ho name`, unmarshal stdout into the untagged
`ZFSVersionOutputT`, and return `&o.ZFSVersion.Userland`. -/
def GetZFSVersion (env : ProcEnv) : Option String × Option RunError :=
  runQuery zpoolListCmdline
    (fun s => (unmarshalVersionOutputNoTags s).map (fun o => o.ZFSVersion.Userland)) env

/-!
## The stream-drain schedule

All three query functions drain the two process streams sequentially:
`io.ReadAll(stdout)` runs to EOF before the first read of stderr is issued.
EOF on stdout requires the child to exit; a child blocked writing stderr
into a full pipe never exits.  The schedule is modelled against a bounded
pipe buffer of the platform's default capacity: a diagnostic write only
completes while stdout is still being drained if it fits the remaining
buffer, and a script completes iff all of its writes complete.
-/

/-- Which stream a child write goes to. -/
inductive StreamId where
  | primary : StreamId
  | diagnostic : StreamId
deriving DecidableEq

/-- One write the child performs; the child exits (closing both streams)
after its last write. -/
structure WriteEv where
  stream : StreamId
  bytes : Nat
deriving DecidableEq

/-- Default pipe buffer capacity (64 KiB on the targeted platform). -/
def pipeCapacity : Nat := 65536

/-- The sequential drain of the source: while the caller is blocked in
`io.ReadAll(stdout)`, primary writes always complete (that stream is being
consumed) and diagnostic writes accumulate unread; one that would overflow
the pipe buffer blocks the child forever — stdout then never reaches EOF
and the query never completes.  `buffered` is the diagnostic byte count
already buffered; the result says whether the run completes. -/
def sequentialDrainCompletes (cap : Nat) : List WriteEv → Nat → Bool
  | [], _ => true
  | ev :: rest, buffered =>
    match ev.stream with
    | .primary => sequentialDrainCompletes cap rest buffered
    | .diagnostic =>
      if buffered + ev.bytes ≤ cap then
        sequentialDrainCompletes cap rest (buffered + ev.bytes)
      else false

/-- Modelled from the spec: the concurrent drain it mandates (two parallel
readers joined before `Wait`) consumes both streams continuously, so every
write of a finite script completes and the query always completes.  The
source contains no such drain; this definition is the spec side of the
comparison. -/
def concurrentDrainCompletes (script : List WriteEv) : Bool :=
  script.length ≥ 0

/-- A child that writes 64 KiB + 1 bytes of diagnostics before its first
primary-output byte (the regression scenario of the spec). -/
def bigStderrFirstScript : List WriteEv :=
  [⟨.diagnostic, 65537⟩, ⟨.primary, 1⟩]

/-- The failure condition a run environment triggers, following the priority
order of the source (pipe setup, then start, then reading stdout, then the
exit status, then unmarshalling); `none` when the query succeeds. -/
def failClassOf {α : Type} (unm : String → Except String α) (env : ProcEnv) :
    Option FailClass :=
  match env.stdoutPipeFail with
  | some _ => some .pipeSetup
  | none =>
    match env.stderrPipeFail with
    | some _ => some .pipeSetup
    | none =>
      match env.startFail with
      | some _ => some .launch
      | none =>
        match env.stdoutRead with
        | .error _ => some .readOut
        | .ok s =>
          match env.waitFail with
          | some _ => some .execFail
          | none =>
            match unm s with
            | .error _ => some .decodeFail
            | .ok _ => none

/-- An error value wraps the command line: the command line occurs verbatim
in the rendered message. -/
def wrapsCmdline (cmdline : String) (e : RunError) : Prop :=
  cmdline.data <:+: (RunError.message e).data

/-- A vdev-object key the decoder knows (any tag of `VdevStatusT`). -/
def isVdevFieldKey (k : String) : Bool :=
  keyMatches k "name" || keyMatches k "vdev_type" || keyMatches k "guid" ||
  keyMatches k "path" || keyMatches k "phys_path" || keyMatches k "devid" ||
  keyMatches k "class" || keyMatches k "state" || keyMatches k "parent" ||
  keyMatches k "rep_dev_size" || keyMatches k "phys_space" ||
  keyMatches k "read_errors" || keyMatches k "write_errors" ||
  keyMatches k "checksum_errors" || keyMatches k "slow_ios" || keyMatches k "vdevs"

/-!
## Concrete runs and documents used by the theorems
-/

/-- The spec's example status document. -/
def exampleStatusDoc : String :=
  "\x7b\"output_version\":\x7b\"command\":\"zpool status\",\"major\":0,\"minor\":1\x7d,\"pools\":\x7b\"tank\":\x7b\"name\":\"tank\",\"state\":\"ONLINE\",\"vdevs\":\x7b\x7d\x7d\x7d\x7d"

/-- A document of the shape `zfs version --json` emits. -/
def zfsVersionDoc : String :=
  "\x7b\"output_version\":\x7b\"command\":\"zfs version\",\"major\":0,\"minor\":1\x7d,\"zfs_version\":\x7b\"userland\":\"zfs-2.2.4-1\",\"kernel\":\"zfs-kmod-2.2.4-1\"\x7d\x7d"

/-- A run that exits 0 and prints `zfsVersionDoc` on stdout. -/
def versionOkRun : ProcEnv := ⟨none, none, none, .ok zfsVersionDoc, "", true, none⟩

/-- A run that exits 0 with empty stdout. -/
def emptyStdoutRun : ProcEnv := ⟨none, none, none, .ok "", "", true, none⟩

/-- A run that exits non-zero with empty stderr, whose stderr read also
failed part-way. -/
def nonzeroExitRun : ProcEnv := ⟨none, none, none, .ok "", "", false, some "exit status 1"⟩

/-- A run whose process could not be started. -/
def launchFailRun : ProcEnv :=
  ⟨none, none, some "executable file not found in PATH", .ok "", "", true, none⟩

/-- A run that exits non-zero after printing a diagnostic. -/
def diagExitRun : ProcEnv :=
  ⟨none, none, none, .ok "", "  no pools available\n", true, some "exit status 2"⟩

/-- A run whose stdout pipe could not be created. -/
def pipeFailRun : ProcEnv :=
  ⟨some "pipe: too many open files", none, none, .ok "", "", true, none⟩

/-- A leaf vdev (depth 3). -/
def leafVdev : VdevStatusT :=
  .mk { zeroVdevScalars with Name := "da0p1", VdevType := "disk", Guid := 77 } []

/-- A depth-2 vdev holding the leaf. -/
def midVdev : VdevStatusT :=
  .mk { zeroVdevScalars with Name := "replacing-0", VdevType := "replacing", Guid := 55 }
    [("da0p1", leafVdev)]

/-- A top-level vdev holding a depth-2 child. -/
def topVdev : VdevStatusT :=
  .mk { zeroVdevScalars with Name := "mirror-0", VdevType := "mirror", Guid := 33 }
    [("replacing-0", midVdev)]

/-- A status envelope whose vdev tree is three levels deep. -/
def deepStatusEnvelope : ZpoolStatusOutputT :=
  ⟨⟨"zpool status", 0, 1⟩,
   [("tank", { zeroPoolStatus with
       Name := "tank",
       State := "ONLINE",
       PoolGuid := 11,
       Vdevs := [("mirror-0", topVdev)] })]⟩

/-- A vdev whose name should never appear in a pool projection. -/
def nestedSecretVdev : VdevStatusT :=
  .mk { zeroVdevScalars with Name := "nested-secret" } []

/-- A top-level vdev with a nested child. -/
def topVdevWithChild (nm : String) : VdevStatusT :=
  .mk { zeroVdevScalars with Name := nm } [("nested-secret", nestedSecretVdev)]

/-- A pool with five top-level vdevs, each with a nested child. -/
def pool5 : PoolStatusT :=
  { zeroPoolStatus with
    Name := "tank",
    Vdevs := [("d0", topVdevWithChild "d0"), ("d1", topVdevWithChild "d1"),
              ("d2", topVdevWithChild "d2"), ("d3", topVdevWithChild "d3"),
              ("d4", topVdevWithChild "d4")] }

/-- Scan statistics whose only non-zero field is `Issued`. -/
def scanWithIssued : ScanStatsT := { zeroScanStats with Issued := 7 }

/-- A status envelope whose single vdev carries the given guid. -/
def vdevGuidEnvelope (g : Int) : Json :=
  .obj [("pools", .obj [("tank", .obj
    [("name", .str "tank"),
     ("vdevs", .obj [("disk0", .obj [("name", .str "disk0"), ("guid", .num g)])])])])]

/-- A status envelope whose pool carries the given pool guid. -/
def poolGuidEnvelope (g : Int) : Json :=
  .obj [("pools", .obj [("tank", .obj
    [("name", .str "tank"), ("pool_guid", .num g)])])]

/-- `json.Unmarshal` for the older file: parse, then ignore every member
(unexported fields). -/
def unmarshalVersionOutputUnexported (s : String) : Except String ZFSVersionOutputT :=
  match parseJson s with
  | none => .error "invalid JSON"
  | some j => decodeVersionOutputUnexported j

/-!
## Round-trip lemmas: decoding the wire form reproduces every field
-/

theorem decIntField_ok (n old : Int) (h : intOKb n = true) :
    decIntField (.num n) old = .ok n := by
  simp [intOKb] at h
  simp [decIntField, h]

theorem insertEntry_fresh {α : Type} (k : String) (v : α) (acc : List (String × α))
    (h : keyFreeb k acc = true) : insertEntry k v acc = acc ++ [(k, v)] := by
  induction acc with
  | nil => rfl
  | cons e rest ih =>
    obtain ⟨k1, v1⟩ := e
    simp [keyFreeb] at h
    have hrest : keyFreeb k rest = true := by
      simp [keyFreeb]
      exact h.2
    simp [insertEntry, h.1, ih hrest]

theorem decodeVdevEntries_encode (kids : List (String × VdevStatusT)) :
    ∀ (acc : List (String × VdevStatusT)),
    (∀ p ∈ kids, decodeVdev (encodeVdev p.2) = .ok p.2) →
    nodupKeysb kids = true →
    (∀ p ∈ kids, keyFreeb p.1 acc = true) →
    decodeVdevEntries (encodeVdevEntries kids) acc = .ok (acc ++ kids) := by
  induction kids with
  | nil =>
    intro acc _ _ _
    simp [encodeVdevEntries, decodeVdevEntries]
  | cons e rest ih =>
    obtain ⟨k, v⟩ := e
    intro acc hrt hnd hfree
    have hv : decodeVdev (encodeVdev v) = .ok v := hrt (k, v) (by simp)
    have hk : keyFreeb k acc = true := hfree (k, v) (by simp)
    simp [nodupKeysb] at hnd
    have hfree' : ∀ p ∈ rest, keyFreeb p.1 (acc ++ [(k, v)]) = true := by
      intro p hp
      have h1 := hfree p (by simp [hp])
      have h3 := hnd.1
      simp only [keyFreeb, List.all_eq_true, List.mem_append] at h1 h3 ⊢
      intro e he
      rcases he with hea | heb
      · exact h1 e hea
      · have hne : ¬(p.1 = k) := by
          have := h3 p hp
          simpa using this
        simp at heb
        simp [heb, Ne.symm hne]
    have := ih (acc ++ [(k, v)]) (fun p hp => hrt p (by simp [hp])) hnd.2 hfree'
    simp [encodeVdevEntries, decodeVdevEntries, hv, insertEntry_fresh k v acc hk, this]

theorem vdevListWFb_mem {kids : List (String × VdevStatusT)} (h : vdevListWFb kids = true) :
    ∀ p ∈ kids, vdevWFb p.2 = true := by
  induction kids with
  | nil => simp
  | cons e rest ih =>
    obtain ⟨k, v⟩ := e
    simp [vdevListWFb] at h
    intro p hp
    rcases List.mem_cons.mp hp with h1 | h2
    · subst h1; exact h.1
    · exact ih h.2 p h2

theorem sizeOf_snd_lt_of_mem {k : String} {c : VdevStatusT}
    {kids : List (String × VdevStatusT)} (h : (k, c) ∈ kids) : sizeOf c < sizeOf kids := by
  have h1 := List.sizeOf_lt_of_mem h
  have h2 : sizeOf c < sizeOf (k, c) := by
    simp
  omega

theorem decodeVdev_encodeVdev_aux : ∀ (n : Nat) (v : VdevStatusT), sizeOf v < n →
    vdevWFb v = true → decodeVdev (encodeVdev v) = .ok v := by
  intro n
  induction n with
  | zero => intro v h; omega
  | succ n ih =>
    intro v hlt hwf
    obtain ⟨s, kids⟩ := v
    have hkidsz : sizeOf kids < n + 1 := by
      have : sizeOf kids < sizeOf (VdevStatusT.mk s kids) := by
        simp
      omega
    simp only [vdevWFb, Bool.and_eq_true] at hwf
    have hrt : ∀ p ∈ kids, decodeVdev (encodeVdev p.2) = .ok p.2 := by
      intro p hp
      obtain ⟨pk, pc⟩ := p
      apply ih
      · show sizeOf pc < n
        have h1 := sizeOf_snd_lt_of_mem hp
        omega
      · exact vdevListWFb_mem hwf.2 (pk, pc) hp
    have hentries := decodeVdevEntries_encode kids [] hrt hwf.1.2
      (by intro p hp; simp [keyFreeb])
    obtain ⟨Name, VdevType, Guid, Path, PhysPath, Devid, DevClass, State,
      Parent, RepDevSize, PhysSpace, ReadErrors, WriteErrors, ChecksumErrors, SlowIos⟩ := s
    simp only [intOKb, decide_eq_true_eq] at hwf
    simp +decide [encodeVdev, decodeVdev, decodeVdevFields, setVdevScalar,
      decStringField, decIntField, hwf.1.1, hentries, keyMatches]

theorem decodeVdev_encodeVdev (v : VdevStatusT) (h : vdevWFb v = true) :
    decodeVdev (encodeVdev v) = .ok v :=
  decodeVdev_encodeVdev_aux (sizeOf v + 1) v (by omega) h

theorem decodeScanStats_encode (sc : ScanStatsT) (old : ScanStatsT)
    (h : scanWFb sc = true) : decodeScanStats (encodeScanStats sc) old = .ok sc := by
  obtain ⟨F, St, T1, T2, TE, Ex, Sk, Pr, Er, BPS, PS, SP, SSP, IBPS, Iss⟩ := sc
  simp only [scanWFb, Bool.and_eq_true, intOKb, decide_eq_true_eq] at h
  simp +decide [encodeScanStats, decodeScanStats, decodeScanFields, setScanField,
    decStringField, decIntField, keyMatches, h]

theorem decodeOutputVersion_encode (v : ZFSCommandOutputVersionT)
    (old : ZFSCommandOutputVersionT) (h : outputVersionWFb v = true) :
    decodeOutputVersion (encodeOutputVersion v) old = .ok v := by
  obtain ⟨C, Ma, Mi⟩ := v
  simp only [outputVersionWFb, Bool.and_eq_true, intOKb, decide_eq_true_eq] at h
  simp +decide [encodeOutputVersion, decodeOutputVersion, decodeOutputVersionFields,
    setOutputVersionField, decStringField, decIntField, keyMatches, h]

theorem poolListWFb_mem {pools : List (String × PoolStatusT)}
    (h : poolListWFb pools = true) : ∀ p ∈ pools, poolWFb p.2 = true := by
  induction pools with
  | nil => simp
  | cons e rest ih =>
    obtain ⟨k, v⟩ := e
    simp [poolListWFb] at h
    intro p hp
    rcases List.mem_cons.mp hp with h1 | h2
    · subst h1; exact h.1
    · exact ih h.2 p h2

theorem decodePool_encode (p : PoolStatusT) (h : poolWFb p = true) :
    decodePool (encodePool p) = .ok p := by
  obtain ⟨Name, State, PoolGuid, Txg, SpaVersion, ZplVersion, Status, Action,
    Moreinfo, ScanStats, Vdevs⟩ := p
  simp only [poolWFb, Bool.and_eq_true] at h
  have hrt : ∀ q ∈ Vdevs, decodeVdev (encodeVdev q.2) = .ok q.2 := by
    intro q hq
    exact decodeVdev_encodeVdev q.2 (vdevListWFb_mem h.2 q hq)
  have hentries := decodeVdevEntries_encode Vdevs [] hrt h.1.2
    (by intro q hq; simp [keyFreeb])
  have hscan := decodeScanStats_encode ScanStats zeroScanStats h.1.1.2
  have hints := h.1.1.1
  simp only [intOKb, decide_eq_true_eq] at hints
  simp +decide [encodePool, decodePool, decodePoolFields, setPoolField,
    decStringField, decIntField, keyMatches, hints, hscan, hentries, zeroPoolStatus]

theorem decodePoolEntries_encode (pools : List (String × PoolStatusT)) :
    ∀ (acc : List (String × PoolStatusT)),
    (∀ p ∈ pools, decodePool (encodePool p.2) = .ok p.2) →
    nodupKeysb pools = true →
    (∀ p ∈ pools, keyFreeb p.1 acc = true) →
    decodePoolEntries (encodePoolEntries pools) acc = .ok (acc ++ pools) := by
  induction pools with
  | nil =>
    intro acc _ _ _
    simp [encodePoolEntries, decodePoolEntries]
  | cons e rest ih =>
    obtain ⟨k, v⟩ := e
    intro acc hrt hnd hfree
    have hv : decodePool (encodePool v) = .ok v := hrt (k, v) (by simp)
    have hk : keyFreeb k acc = true := hfree (k, v) (by simp)
    simp [nodupKeysb] at hnd
    have hfree' : ∀ p ∈ rest, keyFreeb p.1 (acc ++ [(k, v)]) = true := by
      intro p hp
      have h1 := hfree p (by simp [hp])
      have h3 := hnd.1
      simp only [keyFreeb, List.all_eq_true, List.mem_append] at h1 h3 ⊢
      intro e he
      rcases he with hea | heb
      · exact h1 e hea
      · have hne : ¬(p.1 = k) := by
          have := h3 p hp
          simpa using this
        simp at heb
        simp [heb, Ne.symm hne]
    have := ih (acc ++ [(k, v)]) (fun p hp => hrt p (by simp [hp])) hnd.2 hfree'
    simp [encodePoolEntries, decodePoolEntries, hv, insertEntry_fresh k v acc hk, this]

theorem decodeStatusOutput_encode (o : ZpoolStatusOutputT)
    (h : statusOutputWFb o = true) :
    decodeStatusOutput (encodeStatusOutput o) = .ok o := by
  obtain ⟨V, Pools⟩ := o
  simp only [statusOutputWFb, Bool.and_eq_true] at h
  have hver := decodeOutputVersion_encode V zeroOutputVersion h.1.1
  have hrt : ∀ p ∈ Pools, decodePool (encodePool p.2) = .ok p.2 := by
    intro p hp
    exact decodePool_encode p.2 (poolListWFb_mem h.2 p hp)
  have hentries := decodePoolEntries_encode Pools [] hrt h.1.2
    (by intro p hp; simp [keyFreeb])
  simp +decide [encodeStatusOutput, decodeStatusOutput, decodeStatusOutputFields,
    setStatusOutputField, keyMatches, hver, hentries, zeroStatusOutput]

/-!
## Helper lemmas about the process runner
-/

theorem string_data_append (s t : String) : (s ++ t).data = s.data ++ t.data := rfl

theorem runQuery_payload_iff {α : Type} (c : String) (u : String → Except String α)
    (env : ProcEnv) : (runQuery c u env).1.isSome ↔ (runQuery c u env).2 = none := by
  obtain ⟨a, b, st, rd, sb, ok, w⟩ := env
  rcases a with _ | xa <;> rcases b with _ | xb <;> rcases st with _ | xs <;>
    rcases rd with re | rs <;> rcases w with _ | xw
  all_goals simp [runQuery]
  all_goals (rcases hu : u rs with e1 | a1 <;> simp [hu])

theorem runQuery_failClass {α : Type} (c : String) (u : String → Except String α)
    (env : ProcEnv) (e : RunError) (h : (runQuery c u env).2 = some e) :
    failClassOf u env = some e.kind := by
  obtain ⟨a, b, st, rd, sb, ok, w⟩ := env
  rcases a with _ | xa <;> rcases b with _ | xb <;> rcases st with _ | xs <;>
    rcases rd with re | rs <;> rcases w with _ | xw
  all_goals simp_all [runQuery, failClassOf, RunError.kind]
  all_goals (first
    | (subst h; rfl)
    | (rcases hu : u rs with e1 | a1 <;>
        simp_all [runQuery, failClassOf, RunError.kind, hu] <;> (try (subst h; rfl))))

theorem message_wraps_launch (c u : String) : wrapsCmdline c (.launch c u) := by
  refine ⟨"failed to start command \x27".data, ("\x27: " ++ u).data, ?_⟩
  simp [RunError.message, wrapsCmdline, string_data_append]

theorem message_wraps_readOut (c u : String) : wrapsCmdline c (.readOut c u) := by
  refine ⟨"failed to read output of \x27".data,
    ("\x27; output: (" ++ u ++ ")").data, ?_⟩
  simp [RunError.message, wrapsCmdline, string_data_append]

theorem message_wraps_execFail (c s u : String) : wrapsCmdline c (.execFail c s u) := by
  refine ⟨"failed to execute command \x27".data,
    ("\x27; output: \x27" ++ s ++ "\x27 (" ++ u ++ ")").data, ?_⟩
  simp [RunError.message, wrapsCmdline, string_data_append]

theorem message_wraps_decodeFail (c u : String) : wrapsCmdline c (.decodeFail c u) := by
  refine ⟨"failed to read output of \x27".data,
    ("\x27; output: (" ++ u ++ ")").data, ?_⟩
  simp [RunError.message, wrapsCmdline, string_data_append]

/-!
## Helper lemmas about unknown-field decoding
-/

theorem setVdevScalar_unknown (k : String) (v : Json) (acc : VdevScalars)
    (hk : isVdevFieldKey k = false) : setVdevScalar k v acc = .ok acc := by
  simp only [isVdevFieldKey, Bool.or_eq_false_iff] at hk
  simp [setVdevScalar, hk]

theorem decodeVdevFields_unknown (k : String) (v : Json)
    (hk : isVdevFieldKey k = false) (post : List (String × Json)) :
    ∀ (pre : List (String × Json)) (acc : VdevScalars)
      (kids : List (String × VdevStatusT)),
    decodeVdevFields (pre ++ (k, v) :: post) acc kids =
      decodeVdevFields (pre ++ post) acc kids := by
  have hkv : keyMatches k "vdevs" = false := by
    simp only [isVdevFieldKey, Bool.or_eq_false_iff] at hk
    exact hk.2
  have hsv : ∀ (jv : Json) (acc : VdevScalars), setVdevScalar k jv acc = .ok acc :=
    fun jv acc => setVdevScalar_unknown k jv acc hk
  intro pre
  induction pre with
  | nil =>
    intro acc kids
    cases v <;> simp [decodeVdevFields, hkv, hsv]
  | cons e rest ih =>
    intro acc kids
    obtain ⟨k1, v1⟩ := e
    by_cases hvd : keyMatches k1 "vdevs" = true
    · cases v1 <;> simp [decodeVdevFields, hvd, ih]
    · simp at hvd
      cases v1 <;> simp [decodeVdevFields, hvd, ih]

/-!
## The claims
-/

/-- C1: the specification requires the primary and diagnostic streams to be
drained concurrently with process execution, so that a process writing more
than 64 KiB of diagnostics before any primary output still completes.  The
source drains sequentially (stdout to EOF, then stderr); under the modelled
pipe semantics that schedule does not complete on such a process, while the
concurrent drain the specification mandates does; the sequential schedule
does complete when the diagnostics fit the pipe buffer, which is why the
code works in the common case. -/
theorem c1_sequential_drain_deadlocks :
    sequentialDrainCompletes pipeCapacity bigStderrFirstScript 0 = false ∧
    concurrentDrainCompletes bigStderrFirstScript = true ∧
    sequentialDrainCompletes pipeCapacity
      [⟨.diagnostic, 65536⟩, ⟨.primary, 1⟩] 0 = true := by
  refine ⟨by decide, by decide, by decide⟩

set_option maxRecDepth 8000 in
/-- C2: decoding a well-formed wire-shaped envelope reproduces every field
of every pool, scan-stats record and vdev exactly, at any nesting depth
(round trip through the canonical wire form), and the example document of
the specification decodes to a pools mapping with exactly one entry keyed
tank, state ONLINE, and an empty vdevs mapping. -/
theorem c2_decode_reproduces_every_field :
    (∀ (o : ZpoolStatusOutputT), statusOutputWFb o = true →
        decodeStatusOutput (encodeStatusOutput o) = .ok o) ∧
    unmarshalStatusOutput exampleStatusDoc =
      .ok ⟨⟨"zpool status", 0, 1⟩,
           [("tank", { zeroPoolStatus with Name := "tank", State := "ONLINE" })]⟩ := by
  constructor
  · intro o h
    exact decodeStatusOutput_encode o h
  · rfl

/-- C2 witness: a concrete envelope with a three-level vdev tree round
trips through the wire form. -/
theorem c2_decode_reproduces_every_field_witness :
    statusOutputWFb deepStatusEnvelope = true ∧
    decodeStatusOutput (encodeStatusOutput deepStatusEnvelope) =
      .ok deepStatusEnvelope :=
  ⟨rfl, c2_decode_reproduces_every_field.1 deepStatusEnvelope rfl⟩

set_option maxRecDepth 8000 in
/-- C3: the tool version query decodes the snake-case wire names through
its tagged structs and returns the userland string; but the alternate
retrieval path (GetZFSVersion of version.go, and the older unexported
variant) decodes none of the wire fields, because its structs carry no JSON
tags and the keys zfs_version and output_version match no field name even
case-insensitively, so it returns the empty string instead of the userland
version carried by the document. -/
theorem c3_version_wire_name_mapping :
    GetZFSVersionViaJSON versionOkRun = (some "zfs-2.2.4-1", none) ∧
    GetZFSVersion versionOkRun = (some "", none) ∧
    unmarshalVersionOutputNoTags zfsVersionDoc = .ok zeroVersionOutput ∧
    unmarshalVersionOutputUnexported zfsVersionDoc = .ok zeroVersionOutput := by
  refine ⟨rfl, rfl, rfl, rfl⟩

/-- C4: when the process runs and exits 0 but the captured primary output
is empty or not structurally valid JSON, every query returns a DecodeError
wrapping its command line and the parse failure, and never a success
value. -/
theorem c4_decode_error_on_invalid_output :
    ∀ (env : ProcEnv) (s : String),
    env.stdoutPipeFail = none → env.stderrPipeFail = none →
    env.startFail = none → env.stdoutRead = .ok s → env.waitFail = none →
    parseJson s = none →
    ZpoolStatusViaJSON env =
      (none, some (.decodeFail zpoolStatusCmdline "invalid JSON")) ∧
    GetZFSVersionViaJSON env =
      (none, some (.decodeFail zfsVersionCmdline "invalid JSON")) ∧
    GetZFSVersion env =
      (none, some (.decodeFail zpoolListCmdline "invalid JSON")) := by
  intro env s h1 h2 h3 h4 h5 h6
  refine ⟨?_, ?_, ?_⟩ <;>
    simp [ZpoolStatusViaJSON, GetZFSVersionViaJSON, GetZFSVersion, runQuery,
      h1, h2, h3, h4, h5, unmarshalStatusOutput, unmarshalVersionOutputTagged,
      unmarshalVersionOutputNoTags, h6, Except.map]

/-- C4 witness: empty stdout on a clean exit yields a DecodeError for each
query. -/
theorem c4_decode_error_on_invalid_output_witness :
    ZpoolStatusViaJSON emptyStdoutRun =
      (none, some (.decodeFail zpoolStatusCmdline "invalid JSON")) ∧
    GetZFSVersionViaJSON emptyStdoutRun =
      (none, some (.decodeFail zfsVersionCmdline "invalid JSON")) ∧
    GetZFSVersion emptyStdoutRun =
      (none, some (.decodeFail zpoolListCmdline "invalid JSON")) :=
  c4_decode_error_on_invalid_output emptyStdoutRun "" rfl rfl rfl rfl rfl rfl

/-- C5: a run whose process exits non-zero yields an ExecutionError carrying
the command line and the whitespace-trimmed diagnostic text captured so far
(also when empty), and the result does not depend on whether the diagnostic
read succeeded. -/
theorem c5_execution_error_on_nonzero_exit :
    ∀ (env : ProcEnv) (s e : String),
    env.stdoutPipeFail = none → env.stderrPipeFail = none →
    env.startFail = none → env.stdoutRead = .ok s → env.waitFail = some e →
    ZpoolStatusViaJSON env =
      (none, some (.execFail zpoolStatusCmdline (trimSpace env.stderrBytes) e)) ∧
    GetZFSVersionViaJSON env =
      (none, some (.execFail zfsVersionCmdline (trimSpace env.stderrBytes) e)) ∧
    GetZFSVersion env =
      (none, some (.execFail zpoolListCmdline (trimSpace env.stderrBytes) e)) ∧
    (∀ (b : Bool),
      ZpoolStatusViaJSON { env with stderrReadOk := b } = ZpoolStatusViaJSON env) := by
  intro env s e h1 h2 h3 h4 h5
  refine ⟨?_, ?_, ?_, ?_⟩
  · simp [ZpoolStatusViaJSON, runQuery, h1, h2, h3, h4, h5]
  · simp [GetZFSVersionViaJSON, runQuery, h1, h2, h3, h4, h5]
  · simp [GetZFSVersion, runQuery, h1, h2, h3, h4, h5]
  · intro b
    rfl

/-- C5 witness: a non-zero exit with empty diagnostics, whose diagnostic
read also failed part-way, still yields the ExecutionError with the empty
trimmed text. -/
theorem c5_execution_error_on_nonzero_exit_witness :
    ZpoolStatusViaJSON nonzeroExitRun =
      (none, some (.execFail zpoolStatusCmdline "" "exit status 1")) ∧
    GetZFSVersion nonzeroExitRun =
      (none, some (.execFail zpoolListCmdline "" "exit status 1")) :=
  ⟨(c5_execution_error_on_nonzero_exit nonzeroExitRun "" "exit status 1"
      rfl rfl rfl rfl rfl).1,
   (c5_execution_error_on_nonzero_exit nonzeroExitRun "" "exit status 1"
      rfl rfl rfl rfl rfl).2.2.1⟩

/-- C6 counterexample: the claim says the Diagnostic Projection emits every
scalar field verbatim; but the ScanStats projection omits the issued field,
so a record whose issued count is 7 projects to attributes none of which
carries the value 7. -/
theorem c6_issued_missing_from_projection :
    scanWithIssued.Issued = 7 ∧
    (ScanStatsT.LogValue scanWithIssued).all
      (fun a => !(a.2 == AttrVal.int 7)) = true := by
  refine ⟨rfl, by decide⟩

/-- C6 amended: the Diagnostic Projection emits the scalar fields verbatim
except that the ScanStats projection omits issued (and the pool projection
omits the scan-stats record), reduces each collection-valued field to its
element count, and is invariant under replacing the collection content
while keeping the count; a pool with five top-level vdevs reports
num_vdevs 5 and no attribute of its projection carries any nested child
content. -/
theorem c6_projection_scalars_and_counts :
    (∀ (s : VdevScalars) (kids kids2 : List (String × VdevStatusT)),
        kids.length = kids2.length →
        VdevStatusT.LogValue (.mk s kids) = VdevStatusT.LogValue (.mk s kids2)) ∧
    (∀ (p : PoolStatusT) (w : List (String × VdevStatusT)),
        w.length = p.Vdevs.length →
        PoolStatusT.LogValue { p with Vdevs := w } = PoolStatusT.LogValue p) ∧
    (∀ (v : VdevStatusT), VdevStatusT.LogValue v =
      [("name", .str v.scalars.Name), ("vdev_type", .str v.scalars.VdevType),
       ("guid", .int v.scalars.Guid), ("path", .str v.scalars.Path),
       ("phys_path", .str v.scalars.PhysPath), ("devid", .str v.scalars.Devid),
       ("class", .str v.scalars.DevClass), ("state", .str v.scalars.State),
       ("parent", .str v.scalars.Parent), ("rep_dev_size", .int v.scalars.RepDevSize),
       ("phys_space", .int v.scalars.PhysSpace),
       ("read_errors", .int v.scalars.ReadErrors),
       ("write_errors", .int v.scalars.WriteErrors),
       ("checksum_errors", .int v.scalars.ChecksumErrors),
       ("slow_ios", .int v.scalars.SlowIos), ("num_vdevs", .int v.Vdevs.length)]) ∧
    (∀ (s : ScanStatsT), ScanStatsT.LogValue s =
      [("function", .str s.Function), ("state", .str s.State),
       ("start_time", .int s.StartTime), ("end_time", .int s.EndTime),
       ("to_examine", .int s.ToExamine), ("examined", .int s.Examined),
       ("skipped", .int s.Skipped), ("processed", .int s.Processed),
       ("errors", .int s.Errors), ("BytesPerScan", .int s.BytesPerScan),
       ("pass_start", .int s.PassStart), ("scrub_pause", .int s.ScrubPause),
       ("scrub_spent_paused", .int s.ScrubSpentPaused),
       ("issued_bytes_per_scan", .int s.IssuedBytesPerScan)]) ∧
    (∀ (p : PoolStatusT), PoolStatusT.LogValue p =
      [("name", .str p.Name), ("state", .str p.State),
       ("pool_guid", .int p.PoolGuid), ("txg", .int p.Txg),
       ("spa_version", .int p.SpaVersion), ("zpl_version", .int p.ZplVersion),
       ("status", .str p.Status), ("action", .str p.Action),
       ("more_info", .str p.Moreinfo), ("num_vdevs", .int p.Vdevs.length)]) ∧
    ("num_vdevs", AttrVal.int 5) ∈ PoolStatusT.LogValue pool5 ∧
    (PoolStatusT.LogValue pool5).all
      (fun a => !(a.2 == AttrVal.str "nested-secret")) = true := by
  refine ⟨?_, ?_, fun v => rfl, fun s => rfl, fun p => rfl, by decide, by decide⟩
  · intro s kids kids2 h
    simp [VdevStatusT.LogValue, VdevStatusT.scalars, VdevStatusT.Vdevs, h]
  · intro p w h
    simp [PoolStatusT.LogValue, h]

/-- C6 witness: the vdev projection of a mapping with one child equals the
projection after replacing that child with a different one. -/
theorem c6_projection_scalars_and_counts_witness :
    VdevStatusT.LogValue (.mk zeroVdevScalars [("a", zeroVdev)]) =
      VdevStatusT.LogValue (.mk zeroVdevScalars [("b", nestedSecretVdev)]) :=
  c6_projection_scalars_and_counts.1 zeroVdevScalars
    [("a", zeroVdev)] [("b", nestedSecretVdev)] rfl

/-- C7: a query never pairs a failure with a success value (and always
produces one of the two), and failures stemming from distinct failure
conditions are distinguishable values — the error wraps the underlying
typed error, so two runs hitting different conditions can never yield equal
error values. -/
theorem c7_failures_distinguishable :
    (∀ {α : Type} (c : String) (u : String → Except String α) (env : ProcEnv),
        ((runQuery c u env).2.isSome → (runQuery c u env).1 = none) ∧
        ((runQuery c u env).2 = none → (runQuery c u env).1.isSome)) ∧
    (∀ {α β : Type} (c1 c2 : String) (u1 : String → Except String α)
        (u2 : String → Except String β) (env1 env2 : ProcEnv) (e1 e2 : RunError),
        (runQuery c1 u1 env1).2 = some e1 → (runQuery c2 u2 env2).2 = some e2 →
        failClassOf u1 env1 ≠ failClassOf u2 env2 → e1 ≠ e2) := by
  constructor
  · intro α c u env
    have hiff := runQuery_payload_iff c u env
    constructor
    · intro h
      rcases hq : (runQuery c u env).1 with _ | x
      · rfl
      · have h0 : (runQuery c u env).2 = none := hiff.mp (by simp [hq])
        rw [h0] at h
        simp at h
    · intro h
      exact hiff.mpr h
  · intro α β c1 c2 u1 u2 env1 env2 e1 e2 h1 h2 hne heq
    apply hne
    rw [runQuery_failClass c1 u1 env1 e1 h1, runQuery_failClass c2 u2 env2 e2 h2, heq]

/-- C7 witness: a launch failure and a non-zero exit of the pool status
query produce different error values. -/
theorem c7_failures_distinguishable_witness :
    RunError.launch zpoolStatusCmdline "executable file not found in PATH" ≠
      RunError.execFail zpoolStatusCmdline "no pools available" "exit status 2" :=
  c7_failures_distinguishable.2 zpoolStatusCmdline zpoolStatusCmdline
    (fun s => (unmarshalStatusOutput s).map (fun o => o.Pools))
    (fun s => (unmarshalStatusOutput s).map (fun o => o.Pools))
    launchFailRun diagExitRun
    (RunError.launch zpoolStatusCmdline "executable file not found in PATH")
    (RunError.execFail zpoolStatusCmdline "no pools available" "exit status 2")
    rfl rfl (by decide)

/-- C8 counterexample: the claim says every failure value, including
failures before the process is started, wraps the command line; but a
pipe-setup failure is returned bare (`return nil, err`), and its message
does not contain the command line. -/
theorem c8_pipe_error_lacks_cmdline :
    (ZpoolStatusViaJSON pipeFailRun).2 =
      some (.pipeSetup "pipe: too many open files") ∧
    ¬ wrapsCmdline zpoolStatusCmdline
      (RunError.pipeSetup "pipe: too many open files") := by
  constructor
  · rfl
  · intro h
    have hl := h.length_le
    have l1 : zpoolStatusCmdline.data.length = 30 := rfl
    have l2 : (RunError.message
        (RunError.pipeSetup "pipe: too many open files")).data.length = 25 := rfl
    omega

/-- C8 amended: once both pipes are created, every failure a query returns
(launch, primary-read, execution, decode) wraps the exact command line; the
two pipe-setup failures, which happen before the process is started, return
the bare underlying error instead. -/
theorem c8_post_pipe_errors_wrap_cmdline :
    ∀ {α : Type} (c : String) (u : String → Except String α) (env : ProcEnv)
      (e : RunError),
    env.stdoutPipeFail = none → env.stderrPipeFail = none →
    (runQuery c u env).2 = some e → wrapsCmdline c e := by
  intro α c u env e h1 h2 h
  obtain ⟨a, b, st, rd, sb, ok, w⟩ := env
  have h1x : a = none := h1
  have h2x : b = none := h2
  subst h1x h2x
  rcases st with _ | xs
  · rcases rd with re | rs
    · simp [runQuery] at h
      exact h ▸ message_wraps_readOut c re
    · rcases w with _ | xw
      · rcases hu : u rs with e1 | a1
        · simp [runQuery, hu] at h
          exact h ▸ message_wraps_decodeFail c e1
        · simp [runQuery, hu] at h
      · simp [runQuery] at h
        exact h ▸ message_wraps_execFail c (trimSpace sb) xw
  · simp [runQuery] at h
    exact h ▸ message_wraps_launch c xs

/-- C8 witness: the launch failure of the pool status query wraps its
command line. -/
theorem c8_post_pipe_errors_wrap_cmdline_witness :
    wrapsCmdline zpoolStatusCmdline
      (RunError.launch zpoolStatusCmdline "executable file not found in PATH") :=
  c8_post_pipe_errors_wrap_cmdline zpoolStatusCmdline
    (fun s => (unmarshalStatusOutput s).map (fun o => o.Pools)) launchFailRun
    (RunError.launch zpoolStatusCmdline "executable file not found in PATH")
    rfl rfl rfl

/-- C9: unknown members are ignored wherever they occur in a vdev object;
absent members leave the zero value of their type (empty string, zero
integer, empty mapping); a vdev whose children member is absent or maps to
the empty object decodes without error and exposes zero children. -/
theorem c9_forward_compatible_decoding :
    (∀ (k : String) (v : Json) (pre post : List (String × Json)),
        isVdevFieldKey k = false →
        decodeVdev (.obj (pre ++ (k, v) :: post)) =
          decodeVdev (.obj (pre ++ post))) ∧
    decodeVdev (.obj []) = .ok zeroVdev ∧
    decodeStatusOutput (.obj []) = .ok zeroStatusOutput ∧
    decodeVdev (.obj [("name", .str "da0")]) =
      .ok (.mk { zeroVdevScalars with Name := "da0" } []) ∧
    decodeVdev (.obj [("name", .str "da0"), ("vdevs", .obj [])]) =
      .ok (.mk { zeroVdevScalars with Name := "da0" } []) := by
  refine ⟨?_, rfl, rfl, rfl, rfl⟩
  · intro k v pre post hk
    have h := decodeVdevFields_unknown k v hk post pre zeroVdevScalars []
    simp only [decodeVdev]
    exact h

/-- C9 witness: an unknown member is ignored at a concrete position. -/
theorem c9_forward_compatible_decoding_witness :
    decodeVdev (.obj ([("state", Json.str "ONLINE")] ++
        ("future_field", Json.num 3) :: [])) =
      decodeVdev (.obj ([("state", Json.str "ONLINE")] ++ [])) :=
  c9_forward_compatible_decoding.1 "future_field" (Json.num 3)
    [("state", Json.str "ONLINE")] [] (by decide)

/-- C10: the 64-bit identifier fields decode as signed 64-bit integers: an
otherwise well-formed envelope whose vdev guid or pool guid lies in the
unsigned range at or above 2 to the 63rd fails to decode, while the same
envelope with the largest signed value decodes and produces the
identifier. -/
theorem c10_guid_signed_64bit :
    decodeStatusOutput (vdevGuidEnvelope (2 ^ 63)) =
      .error "cannot unmarshal number into Go field of type int64" ∧
    decodeStatusOutput (vdevGuidEnvelope (2 ^ 64 - 1)) =
      .error "cannot unmarshal number into Go field of type int64" ∧
    decodeStatusOutput (poolGuidEnvelope (2 ^ 63)) =
      .error "cannot unmarshal number into Go field of type int64" ∧
    decodeStatusOutput (vdevGuidEnvelope (2 ^ 63 - 1)) =
      .ok ⟨zeroOutputVersion,
           [("tank", { zeroPoolStatus with
               Name := "tank",
               Vdevs := [("disk0",
                 .mk { zeroVdevScalars with Name := "disk0", Guid := 2 ^ 63 - 1 } [])] })]⟩ := by
  refine ⟨rfl, rfl, rfl, rfl⟩
